import Mathlib

set_option maxRecDepth 4000

/-!
# Verification of the PrepForge backend core

Shallow embedding of the answer-scoring and progress-aggregation pipeline of
the PrepForge backend (feedback.service.ts, ai.service.ts, database.service.ts,
api.routes.ts, cache.service.ts, db/schema.ts), together with proofs of the
specification's claims about it.

Scores are modelled as rationals (ℚ): the JavaScript code performs only
additions, multiplications and divisions on them, and all claims are about
exact arithmetic relationships.  Calendar days are modelled as natural day
numbers.  The external generative-language backend is modelled as an oracle
parameter: an inductive value describing which of the code's observable
upstream outcomes occurred (call/parse failure, or a successfully parsed
payload), since the code branches only on those outcomes.
-/

namespace PrepForge

/-! ## Feedback normalizer (feedback.service.ts, `FeedbackService.generateFeedback`)

The service asks the backend for a JSON object with four numeric score fields
and two free-text fields, strips code fences, and calls `JSON.parse`.  The
parsed object is returned to the caller exactly as parsed; in the parsed
payload each field may be absent, so every field is an `Option`. -/

structure ScoreRecord where
  relevanceScore : Option ℚ
  clarityScore : Option ℚ
  depthScore : Option ℚ
  starMethodScore : Option ℚ
  overallFeedback : Option String
  suggestion : Option String
deriving DecidableEq, Repr

/-- Observable outcomes of the upstream call in `FeedbackService.generateFeedback`:
either some step of `generateContent` / `response.text()` / `JSON.parse` threw
(all reaching the single `catch`), or parsing succeeded with a payload. -/
inductive UpstreamFeedback where
  | failure : UpstreamFeedback
  | parsed : ScoreRecord → UpstreamFeedback
deriving DecidableEq, Repr

/-- The constant fallback object built in the `catch` branch of
`FeedbackService.generateFeedback`. -/
def fallbackFeedback : ScoreRecord :=
  { relevanceScore := some 0
    clarityScore := some 0
    depthScore := some 0
    starMethodScore := some 0
    overallFeedback := some "Could not generate feedback due to an error."
    suggestion := some "Please try again later." }

/-- Embeds `FeedbackService.generateFeedback(question, answer)`: on a successful parse
the parsed object is returned unmodified; on any failure the constant fallback
is returned.  `question` and `answer` are embedded in the prompt only; the
function body does not inspect them. -/
def generateFeedback (question answer : String) (upstream : UpstreamFeedback) :
    ScoreRecord :=
  match upstream with
  | .parsed fb => fb
  | .failure => fallbackFeedback

/-- The length of `answer.split(" ")` in JavaScript: splitting on a
one-character separator yields one part per separator occurrence plus one
(empty parts included), so the part count is the number of spaces plus 1. -/
def wordCount (answer : String) : ℕ :=
  answer.data.count ' ' + 1

/-- Embeds `AIService.getFallbackFeedback(answer)` (ai.service.ts): the word-count
heuristic (`answer.split(" ").length`).  It returns one of three fixed
*strings*; it carries no numeric fields. -/
def getFallbackFeedback (answer : String) : String :=
  if wordCount answer < 20 then
    "Your answer is quite brief. Try to provide more specific examples and details to better demonstrate your experience and thought process."
  else if wordCount answer > 200 then
    "Your answer is comprehensive but quite lengthy. Try to be more concise while maintaining the key points that showcase your qualifications."
  else
    "Good response! Consider adding specific examples or metrics to strengthen your answer and make it more memorable for the interviewer."

/-- A parsed upstream payload with an out-of-range score and a missing score. -/
def oobFeedback : ScoreRecord :=
  { relevanceScore := some 15
    clarityScore := none
    depthScore := some 2
    starMethodScore := some 2
    overallFeedback := none
    suggestion := none }

/-- A two-word answer (word count 2, i.e. "too short" for the heuristic). -/
def shortAnswer : String := "Used Java."

/-- A 201-word answer (word count 201, i.e. "too long" for the heuristic). -/
def longAnswer : String := String.intercalate " " (List.replicate 201 "w")

/-- C1 counterexample: `generateFeedback` does not clamp or default.  With an
upstream payload whose `relevanceScore` is 15 and whose `clarityScore` is
absent, the returned record has `relevanceScore = 15 ∉ [0,10]` and
`clarityScore` still absent (not defaulted to 0). -/
theorem generateFeedback_no_clamp_counterexample :
    (generateFeedback "Q" "A" (.parsed oobFeedback)).relevanceScore = some 15 ∧
    ¬ ((15 : ℚ) ≤ 10) ∧
    (generateFeedback "Q" "A" (.parsed oobFeedback)).clarityScore = none := by
  refine ⟨rfl, by norm_num, rfl⟩

/-- C1 (amended): the [0,10] guarantee holds only on the failure path, where the
fallback sets all four numeric fields to 0; on a successful parse the parsed
fields are returned unmodified — missing fields stay missing and out-of-range
values are passed through unclamped. -/
theorem generateFeedback_passthrough_and_fallback_bounds :
    (∀ question answer fb,
        generateFeedback question answer (.parsed fb) = fb) ∧
    (∀ question answer,
        generateFeedback question answer .failure = fallbackFeedback) ∧
    fallbackFeedback.relevanceScore = some 0 ∧
    fallbackFeedback.clarityScore = some 0 ∧
    fallbackFeedback.depthScore = some 0 ∧
    fallbackFeedback.starMethodScore = some 0 ∧
    (0 : ℚ) ≤ 0 ∧ (0 : ℚ) ≤ 10 :=
  ⟨fun _ _ _ => rfl, fun _ _ => rfl, rfl, rfl, rfl, rfl, le_refl 0, by norm_num⟩

/-- C6 counterexample: the numeric fallback of `FeedbackService.generateFeedback`
is not derived from the answer's length.  A 201-word answer and a 2-word answer
receive the identical all-zero fallback, so the "too long → mid band" branch of
the claim does not exist on the numeric path. -/
theorem feedbackFallback_length_independent_counterexample :
    generateFeedback "Q" longAnswer .failure = generateFeedback "Q" shortAnswer .failure ∧
    (generateFeedback "Q" longAnswer .failure).relevanceScore = some 0 ∧
    (generateFeedback "Q" longAnswer .failure).starMethodScore = some 0 := by
  refine ⟨rfl, rfl, rfl⟩

/-- C6 (amended): the normalizer never throws — every failure path resolves to
the single constant fallback whose four numeric fields are identically 0.  The
answer-length heuristic exists only in `AIService.getFallbackFeedback`, which
returns a free-text string (no numeric fields) and does distinguish the short
and long answers. -/
theorem feedbackFallback_constant_and_text_heuristic :
    (∀ question answer,
        generateFeedback question answer .failure = fallbackFeedback) ∧
    fallbackFeedback.relevanceScore = some 0 ∧
    fallbackFeedback.clarityScore = some 0 ∧
    fallbackFeedback.depthScore = some 0 ∧
    fallbackFeedback.starMethodScore = some 0 ∧
    getFallbackFeedback shortAnswer ≠ getFallbackFeedback longAnswer := by
  refine ⟨fun _ _ => rfl, rfl, rfl, rfl, rfl, ?_⟩
  decide

/-! ## Progress aggregator (database.service.ts, `DatabaseService.updateUserProgress`)

`saveAnswer` persists an Answer row and then calls `updateUserProgress(userId,
{relevanceScore, clarityScore, depthScore})` with the three nullable sub-scores
of the row it just saved.  `updateUserProgress` reads the user's single
`user_progress` row (or finds none), and either updates it or inserts a fresh
one.  Dates are modelled as calendar-day numbers: the source truncates both
timestamps to local-midnight and divides the difference by 86 400 000 ms, which
on day-aligned timestamps is exactly the day-number difference. -/

structure AnswerScores where
  relevanceScore : Option ℚ
  clarityScore : Option ℚ
  depthScore : Option ℚ
deriving DecidableEq, Repr

/-- JavaScript `x || 0` applied to a nullable score. -/
def orZero : Option ℚ → ℚ
  | none => 0
  | some x => x

/-- The per-answer sample mean
`((scores.relevanceScore || 0) + (scores.clarityScore || 0) + (scores.depthScore || 0)) / 3`. -/
def sampleMean (scores : AnswerScores) : ℚ :=
  (orZero scores.relevanceScore + orZero scores.clarityScore +
    orZero scores.depthScore) / 3

/-- The `user_progress` row (db/schema.ts).  `lastPracticeDate` is a nullable
day number; `achievements`/`badges` are opaque JSON arrays modelled as lists. -/
structure UserProgressRow where
  totalQuestionsAnswered : ℕ
  averageScore : ℚ
  currentStreak : ℕ
  longestStreak : ℕ
  lastPracticeDate : Option ℕ
  behavioralSkill : ℕ
  technicalSkill : ℕ
  situationalSkill : ℕ
  communicationSkill : ℕ
  totalInterviews : ℕ
  completedInterviews : ℕ
  achievements : List String
  badges : List String
  updatedAt : ℕ
deriving DecidableEq, Repr

/-- The streak computation of `updateUserProgress` (database.service.ts lines
201–229): `diffDays` is the calendar-day difference between today and the last
practice day; `diffDays === 1` increments, `diffDays > 1` resets to 1, anything
else (same day, or a clock that moved backwards) leaves the streak unchanged;
no stored date yields 1. -/
def computeStreak (today : ℕ) (lastPracticeDate : Option ℕ) (currentStreak : ℕ) : ℕ :=
  match lastPracticeDate with
  | some lastPractice =>
      let diffDays : ℤ := (today : ℤ) - (lastPractice : ℤ)
      if diffDays = 1 then currentStreak + 1
      else if 1 < diffDays then 1
      else currentStreak
  | none => 1

/-- Embeds `DatabaseService.updateUserProgress(userId, scores)` restricted to one
user's row: `existing` is the current row (or `none`), `today` the call's
calendar day.  The update branch recomputes the running mean incrementally and
the streak, and writes only the six fields the source's `.set({...})` names;
the insert branch creates the row with the schema defaults for every field it
does not name. -/
def updateUserProgress (today : ℕ) (existing : Option UserProgressRow)
    (scores : AnswerScores) : UserProgressRow :=
  match existing with
  | some current =>
      let newTotalAnswers : ℕ := current.totalQuestionsAnswered + 1
      let newAverageScore : ℚ :=
        (current.averageScore * (current.totalQuestionsAnswered : ℚ) +
          sampleMean scores) / (newTotalAnswers : ℚ)
      let newCurrentStreak : ℕ :=
        computeStreak today current.lastPracticeDate current.currentStreak
      let newLongestStreak : ℕ :=
        if newCurrentStreak > current.longestStreak then newCurrentStreak
        else current.longestStreak
      { current with
          totalQuestionsAnswered := newTotalAnswers
          averageScore := newAverageScore
          lastPracticeDate := some today
          currentStreak := newCurrentStreak
          longestStreak := newLongestStreak
          updatedAt := today }
  | none =>
      { totalQuestionsAnswered := 1
        averageScore := sampleMean scores
        currentStreak := 1
        longestStreak := 1
        lastPracticeDate := some today
        behavioralSkill := 50
        technicalSkill := 50
        situationalSkill := 50
        communicationSkill := 50
        totalInterviews := 0
        completedInterviews := 0
        achievements := []
        badges := []
        updatedAt := today }

/-- One `recordAnswer` call as a transition on the optional row. -/
def progressStep (st : Option UserProgressRow) (call : ℕ × AnswerScores) :
    Option UserProgressRow :=
  some (updateUserProgress call.1 st call.2)

/-- A whole call history, starting from the lazy no-row state. -/
def runProgress (calls : List (ℕ × AnswerScores)) : Option UserProgressRow :=
  calls.foldl progressStep none

/-! ### Per-step lemmas -/

theorem update_some_total (today : ℕ) (st : UserProgressRow) (scores : AnswerScores) :
    (updateUserProgress today (some st) scores).totalQuestionsAnswered =
      st.totalQuestionsAnswered + 1 := rfl

theorem update_some_avg_mul (today : ℕ) (st : UserProgressRow) (scores : AnswerScores) :
    (updateUserProgress today (some st) scores).averageScore *
        ((st.totalQuestionsAnswered + 1 : ℕ) : ℚ) =
      st.averageScore * (st.totalQuestionsAnswered : ℚ) + sampleMean scores := by
  have hne : ((st.totalQuestionsAnswered + 1 : ℕ) : ℚ) ≠ 0 :=
    Nat.cast_ne_zero.mpr (Nat.succ_ne_zero _)
  show (st.averageScore * (st.totalQuestionsAnswered : ℚ) + sampleMean scores) /
      ((st.totalQuestionsAnswered + 1 : ℕ) : ℚ) *
      ((st.totalQuestionsAnswered + 1 : ℕ) : ℚ) = _
  rw [div_mul_cancel₀ _ hne]

theorem update_some_currentStreak (today : ℕ) (st : UserProgressRow)
    (scores : AnswerScores) :
    (updateUserProgress today (some st) scores).currentStreak =
      computeStreak today st.lastPracticeDate st.currentStreak := rfl

theorem update_some_longestStreak (today : ℕ) (st : UserProgressRow)
    (scores : AnswerScores) :
    (updateUserProgress today (some st) scores).longestStreak =
      max st.longestStreak (computeStreak today st.lastPracticeDate st.currentStreak) := by
  show (if computeStreak today st.lastPracticeDate st.currentStreak > st.longestStreak
      then computeStreak today st.lastPracticeDate st.currentStreak
      else st.longestStreak) = _
  rw [Nat.max_def]
  split <;> split <;> omega

theorem update_some_frame (today : ℕ) (st : UserProgressRow) (scores : AnswerScores) :
    (updateUserProgress today (some st) scores).behavioralSkill = st.behavioralSkill ∧
    (updateUserProgress today (some st) scores).technicalSkill = st.technicalSkill ∧
    (updateUserProgress today (some st) scores).situationalSkill = st.situationalSkill ∧
    (updateUserProgress today (some st) scores).communicationSkill = st.communicationSkill ∧
    (updateUserProgress today (some st) scores).totalInterviews = st.totalInterviews ∧
    (updateUserProgress today (some st) scores).completedInterviews = st.completedInterviews ∧
    (updateUserProgress today (some st) scores).achievements = st.achievements ∧
    (updateUserProgress today (some st) scores).badges = st.badges :=
  ⟨rfl, rfl, rfl, rfl, rfl, rfl, rfl, rfl⟩

theorem computeStreak_none (today cur : ℕ) : computeStreak today none cur = 1 := rfl

theorem computeStreak_next_day (lastPractice cur : ℕ) :
    computeStreak (lastPractice + 1) (some lastPractice) cur = cur + 1 := by
  simp only [computeStreak]
  split_ifs with h1 h2 <;> omega

theorem computeStreak_same_day (lastPractice cur : ℕ) :
    computeStreak lastPractice (some lastPractice) cur = cur := by
  simp only [computeStreak]
  split_ifs with h1 h2 <;> omega

theorem computeStreak_gap (today lastPractice cur : ℕ) (h : lastPractice + 1 < today) :
    computeStreak today (some lastPractice) cur = 1 := by
  simp only [computeStreak]
  split_ifs with h1 h2 <;> omega

/-! ### The running-mean / frame invariant over a call history -/

theorem foldl_from_some (calls : List (ℕ × AnswerScores)) :
    ∀ row : UserProgressRow,
      ∃ r : UserProgressRow,
        List.foldl progressStep (some row) calls = some r ∧
        r.totalQuestionsAnswered = row.totalQuestionsAnswered + calls.length ∧
        r.averageScore * (r.totalQuestionsAnswered : ℚ) =
          row.averageScore * (row.totalQuestionsAnswered : ℚ) +
            (calls.map fun c => sampleMean c.2).sum ∧
        r.behavioralSkill = row.behavioralSkill ∧
        r.technicalSkill = row.technicalSkill ∧
        r.situationalSkill = row.situationalSkill ∧
        r.communicationSkill = row.communicationSkill ∧
        r.totalInterviews = row.totalInterviews ∧
        r.completedInterviews = row.completedInterviews ∧
        r.achievements = row.achievements ∧
        r.badges = row.badges := by
  induction calls with
  | nil =>
      intro row
      exact ⟨row, rfl, by simp, by simp, rfl, rfl, rfl, rfl, rfl, rfl, rfl, rfl⟩
  | cons c cs ih =>
      intro row
      obtain ⟨r, hfold, htot, havg, hb, ht, hs, hc, hti, hci, hach, hbad⟩ :=
        ih (updateUserProgress c.1 (some row) c.2)
      have hstep := update_some_frame c.1 row c.2
      refine ⟨r, ?_, ?_, ?_, ?_, ?_, ?_, ?_, ?_, ?_, ?_, ?_⟩
      · simpa [progressStep] using hfold
      · rw [htot, update_some_total]
        simp [List.length_cons]
        omega
      · rw [htot, update_some_total] at *
        have hmul := update_some_avg_mul c.1 row c.2
        rw [havg]
        push_cast [update_some_total] at *
        rw [hmul]
        simp [List.sum_cons]
        ring
      · rw [hb, hstep.1]
      · rw [ht, hstep.2.1]
      · rw [hs, hstep.2.2.1]
      · rw [hc, hstep.2.2.2.1]
      · rw [hti, hstep.2.2.2.2.1]
      · rw [hci, hstep.2.2.2.2.2.1]
      · rw [hach, hstep.2.2.2.2.2.2.1]
      · rw [hbad, hstep.2.2.2.2.2.2.2]

/-! ## The `POST /generate-feedback` pipeline (api.routes.ts lines 130–156)

The handler calls the normalizer, computes
`overallScore = (relevance + clarity + depth + starMethod) / 4` at the call
site, persists the Answer via `saveAnswer`, which then invokes
`updateUserProgress` with only the three sub-scores `relevance`, `clarity`,
`depth`. -/

/-- The four numeric fields the route reads off the AI feedback object (for a
well-formed upstream response where all four are present). -/
structure FeedbackScores where
  relevanceScore : ℚ
  clarityScore : ℚ
  depthScore : ℚ
  starMethodScore : ℚ
deriving DecidableEq, Repr

/-- The `overallScore` computed in the route handler. -/
def overallScore (f : FeedbackScores) : ℚ :=
  (f.relevanceScore + f.clarityScore + f.depthScore + f.starMethodScore) / 4

/-- The score-bearing columns of the persisted Answer row. -/
structure SavedAnswer where
  relevanceScore : Option ℚ
  clarityScore : Option ℚ
  depthScore : Option ℚ
  overallScore : Option ℚ
deriving DecidableEq, Repr

/-- The Answer row the handler passes to `saveAnswer`. -/
def answerOfFeedback (f : FeedbackScores) : SavedAnswer :=
  { relevanceScore := some f.relevanceScore
    clarityScore := some f.clarityScore
    depthScore := some f.depthScore
    overallScore := some (overallScore f) }

/-- The three sub-scores `saveAnswer` forwards to `updateUserProgress`. -/
def scoresOfFeedback (f : FeedbackScores) : AnswerScores :=
  { relevanceScore := some f.relevanceScore
    clarityScore := some f.clarityScore
    depthScore := some f.depthScore }

/-- One `generate-feedback` request: append the Answer row, then update the
progress row. -/
def pipeStep (acc : List SavedAnswer × Option UserProgressRow)
    (call : ℕ × FeedbackScores) : List SavedAnswer × Option UserProgressRow :=
  (acc.1 ++ [answerOfFeedback call.2],
   some (updateUserProgress call.1 acc.2 (scoresOfFeedback call.2)))

/-- A whole history of `generate-feedback` requests for one user, starting with
no Answers and no progress row.  Returns (persisted Answers, progress row). -/
def runPipeline (calls : List (ℕ × FeedbackScores)) :
    List SavedAnswer × Option UserProgressRow :=
  calls.foldl pipeStep ([], none)

theorem runPipeline_foldl (calls : List (ℕ × FeedbackScores)) :
    ∀ (acc : List SavedAnswer) (st : Option UserProgressRow),
      calls.foldl pipeStep (acc, st) =
        (acc ++ calls.map fun c => answerOfFeedback c.2,
         List.foldl progressStep st (calls.map fun c => (c.1, scoresOfFeedback c.2))) := by
  induction calls with
  | nil => intro acc st; simp
  | cons c cs ih =>
      intro acc st
      simp only [List.foldl_cons, List.map_cons, pipeStep, progressStep]
      rw [ih]
      simp

/-! ## Concrete sample data shared by the witnesses -/

/-- A concrete answer's sub-scores (8, 6, 7). -/
def exampleScores : AnswerScores :=
  { relevanceScore := some 8, clarityScore := some 6, depthScore := some 7 }

/-- An all-null score triple: every sub-score absent from the AI payload. -/
def nullScores : AnswerScores :=
  { relevanceScore := none, clarityScore := none, depthScore := none }

/-- A concrete pre-existing progress row: 2 answers, average 5, streak 3 of 4,
last practice on day 5. -/
def exampleRow : UserProgressRow :=
  { totalQuestionsAnswered := 2
    averageScore := 5
    currentStreak := 3
    longestStreak := 4
    lastPracticeDate := some 5
    behavioralSkill := 50
    technicalSkill := 50
    situationalSkill := 50
    communicationSkill := 50
    totalInterviews := 0
    completedInterviews := 0
    achievements := []
    badges := []
    updatedAt := 5 }

/-- Feedback whose three-score mean (0) differs from its four-score mean (1). -/
def cexFeedback : FeedbackScores :=
  { relevanceScore := 0, clarityScore := 0, depthScore := 0, starMethodScore := 4 }

/-! ## Claims about the aggregator -/

/-- C3: for any call history starting from the zero state, the incrementally
maintained `averageScore` (`newAvg = (oldAvg * oldCount + newSampleMean) /
(oldCount + 1)`) equals the batch mean, in exact arithmetic, of the per-answer
sample means over the whole history. -/
theorem incremental_mean_eq_batch_mean (calls : List (ℕ × AnswerScores))
    (h : calls ≠ []) :
    ∃ row : UserProgressRow, runProgress calls = some row ∧
      row.averageScore =
        (calls.map fun c => sampleMean c.2).sum / (calls.length : ℚ) := by
  match calls, h with
  | c :: cs, _ =>
    obtain ⟨r, hfold, htot, havg, -⟩ := foldl_from_some cs (updateUserProgress c.1 none c.2)
    have hfold' : runProgress (c :: cs) = some r := by
      simpa [runProgress, progressStep] using hfold
    refine ⟨r, hfold', ?_⟩
    have htot' : r.totalQuestionsAnswered = cs.length + 1 := by
      rw [htot]; show 1 + cs.length = _ ; omega
    have hins_tot : (updateUserProgress c.1 none c.2).totalQuestionsAnswered = 1 := rfl
    have hins_avg : (updateUserProgress c.1 none c.2).averageScore = sampleMean c.2 := rfl
    rw [hins_tot, hins_avg, htot'] at havg
    have hlen : ((c :: cs).length : ℚ) = ((cs.length + 1 : ℕ) : ℚ) := by
      simp [List.length_cons]
    have hlen0 : ((cs.length + 1 : ℕ) : ℚ) ≠ 0 :=
      Nat.cast_ne_zero.mpr (Nat.succ_ne_zero _)
    rw [hlen, eq_div_iff hlen0, havg]
    simp [List.map_cons, List.sum_cons]

/-- C3 witness at the one-call history `[(0, exampleScores)]`. -/
theorem incremental_mean_eq_batch_mean_witness :
    ([((0 : ℕ), exampleScores)] ≠ []) ∧
    ∃ row : UserProgressRow, runProgress [((0 : ℕ), exampleScores)] = some row ∧
      row.averageScore =
        ([((0 : ℕ), exampleScores)].map fun c => sampleMean c.2).sum /
          (([((0 : ℕ), exampleScores)].length : ℕ) : ℚ) :=
  ⟨by simp, incremental_mean_eq_batch_mean [((0 : ℕ), exampleScores)] (by simp)⟩

/-- C4: streak transitions of `updateUserProgress`.  No prior practice date (no
row, or a row with a null date) yields streak 1; a call exactly one calendar
day after the stored date increments; the same day leaves the streak unchanged;
a gap of more than one day resets to 1 and (when a streak was ever recorded)
leaves `longestStreak` unchanged; `longestStreak` always becomes
`max(longestStreak, newStreak)`; and three consecutive practice days from the
zero state yield streaks 1, 2, 3 with matching longest streak. -/
theorem streak_transitions (today : ℕ) (st : UserProgressRow) (scores : AnswerScores) :
    ((updateUserProgress today none scores).currentStreak = 1) ∧
    (st.lastPracticeDate = none →
        (updateUserProgress today (some st) scores).currentStreak = 1) ∧
    (∀ lastPractice : ℕ, st.lastPracticeDate = some lastPractice →
        (today = lastPractice + 1 →
            (updateUserProgress today (some st) scores).currentStreak =
              st.currentStreak + 1) ∧
        (today = lastPractice →
            (updateUserProgress today (some st) scores).currentStreak =
              st.currentStreak) ∧
        (lastPractice + 1 < today →
            (updateUserProgress today (some st) scores).currentStreak = 1 ∧
            (1 ≤ st.longestStreak →
                (updateUserProgress today (some st) scores).longestStreak =
                  st.longestStreak))) ∧
    ((updateUserProgress today (some st) scores).longestStreak =
        max st.longestStreak (updateUserProgress today (some st) scores).currentStreak) ∧
    (∀ (d : ℕ) (s1 s2 s3 : AnswerScores),
        Option.map UserProgressRow.currentStreak (runProgress [(d, s1)]) = some 1 ∧
        Option.map UserProgressRow.currentStreak
          (runProgress [(d, s1), (d + 1, s2)]) = some 2 ∧
        Option.map UserProgressRow.currentStreak
          (runProgress [(d, s1), (d + 1, s2), (d + 2, s3)]) = some 3 ∧
        Option.map UserProgressRow.longestStreak
          (runProgress [(d, s1), (d + 1, s2), (d + 2, s3)]) = some 3) := by
  refine ⟨rfl, ?_, ?_, ?_, ?_⟩
  · intro hnone
    rw [update_some_currentStreak, hnone, computeStreak_none]
  · intro lastPractice hlast
    refine ⟨?_, ?_, ?_⟩
    · intro hday
      rw [update_some_currentStreak, hlast, hday, computeStreak_next_day]
    · intro hday
      rw [update_some_currentStreak, hlast, hday, computeStreak_same_day]
    · intro hgap
      have hcur : (updateUserProgress today (some st) scores).currentStreak = 1 := by
        rw [update_some_currentStreak, hlast, computeStreak_gap today lastPractice _ hgap]
      refine ⟨hcur, ?_⟩
      intro hpos
      rw [update_some_longestStreak, hlast, computeStreak_gap today lastPractice _ hgap]
      omega
  · exact update_some_longestStreak today st scores
  · intro d s1 s2 s3
    have h1 : runProgress [(d, s1)] = some (updateUserProgress d none s1) := rfl
    have e1 : (updateUserProgress d none s1).lastPracticeDate = some d := rfl
    have c1 : (updateUserProgress d none s1).currentStreak = 1 := rfl
    have l1 : (updateUserProgress d none s1).longestStreak = 1 := rfl
    have h2 : runProgress [(d, s1), (d + 1, s2)] =
        some (updateUserProgress (d + 1) (some (updateUserProgress d none s1)) s2) := rfl
    have c2 : (updateUserProgress (d + 1) (some (updateUserProgress d none s1))
        s2).currentStreak = 2 := by
      rw [update_some_currentStreak, e1, c1, computeStreak_next_day]
    have e2 : (updateUserProgress (d + 1) (some (updateUserProgress d none s1))
        s2).lastPracticeDate = some (d + 1) := rfl
    have l2 : (updateUserProgress (d + 1) (some (updateUserProgress d none s1))
        s2).longestStreak = 2 := by
      rw [update_some_longestStreak, e1, c1, computeStreak_next_day, l1]
      omega
    have h3 : runProgress [(d, s1), (d + 1, s2), (d + 2, s3)] =
        some (updateUserProgress (d + 2)
          (some (updateUserProgress (d + 1) (some (updateUserProgress d none s1)) s2))
          s3) := rfl
    have c3 : (updateUserProgress (d + 2)
        (some (updateUserProgress (d + 1) (some (updateUserProgress d none s1)) s2))
        s3).currentStreak = 3 := by
      rw [update_some_currentStreak, e2, c2]
      have : d + 2 = (d + 1) + 1 := by omega
      rw [this, computeStreak_next_day]
    have l3 : (updateUserProgress (d + 2)
        (some (updateUserProgress (d + 1) (some (updateUserProgress d none s1)) s2))
        s3).longestStreak = 3 := by
      rw [update_some_longestStreak, e2, c2, l2]
      have : d + 2 = (d + 1) + 1 := by omega
      rw [this, computeStreak_next_day]
      omega
    rw [h1, h2, h3]
    exact ⟨congrArg some c1, congrArg some c2, congrArg some c3, congrArg some l3⟩

/-- C4 witness: a call on day 6 after a stored practice date of day 5
increments the streak of `exampleRow` from 3 to 4. -/
theorem streak_transitions_witness :
    exampleRow.lastPracticeDate = some 5 ∧
    (updateUserProgress 6 (some exampleRow) exampleScores).currentStreak =
      exampleRow.currentStreak + 1 :=
  ⟨rfl, (((streak_transitions 6 exampleRow exampleScores).2.2.1 5 rfl).1 rfl)⟩

/-- C5: after every `updateUserProgress` call — insert branch and update branch
alike, so after every call of any sequence — `currentStreak ≤ longestStreak`
holds in the written row, and the update branch never decreases
`longestStreak`. -/
theorem streak_invariant :
    (∀ (today : ℕ) (existing : Option UserProgressRow) (scores : AnswerScores),
        (updateUserProgress today existing scores).currentStreak ≤
          (updateUserProgress today existing scores).longestStreak) ∧
    (∀ (today : ℕ) (prev : UserProgressRow) (scores : AnswerScores),
        prev.longestStreak ≤ (updateUserProgress today (some prev) scores).longestStreak) := by
  constructor
  · intro today existing scores
    match existing with
    | none => exact le_refl 1
    | some prev =>
        rw [update_some_currentStreak, update_some_longestStreak]
        exact le_max_right _ _
  · intro today prev scores
    rw [update_some_longestStreak]
    exact le_max_left _ _

/-- C9: the aggregator writes only `totalQuestionsAnswered`, `averageScore`,
`currentStreak`, `longestStreak`, `lastPracticeDate` and `updatedAt`: every
other field of the row is preserved by the update branch, and under any call
history from the no-row state the four skill levels stay 50, the interview
totals stay 0 and the achievement/badge arrays stay empty. -/
theorem aggregator_frame (today : ℕ) (prev : UserProgressRow) (scores : AnswerScores)
    (calls : List (ℕ × AnswerScores)) (row : UserProgressRow)
    (h : runProgress calls = some row) :
    (updateUserProgress today (some prev) scores).behavioralSkill = prev.behavioralSkill ∧
    (updateUserProgress today (some prev) scores).technicalSkill = prev.technicalSkill ∧
    (updateUserProgress today (some prev) scores).situationalSkill = prev.situationalSkill ∧
    (updateUserProgress today (some prev) scores).communicationSkill = prev.communicationSkill ∧
    (updateUserProgress today (some prev) scores).totalInterviews = prev.totalInterviews ∧
    (updateUserProgress today (some prev) scores).completedInterviews = prev.completedInterviews ∧
    (updateUserProgress today (some prev) scores).achievements = prev.achievements ∧
    (updateUserProgress today (some prev) scores).badges = prev.badges ∧
    row.behavioralSkill = 50 ∧ row.technicalSkill = 50 ∧
    row.situationalSkill = 50 ∧ row.communicationSkill = 50 ∧
    row.totalInterviews = 0 ∧ row.completedInterviews = 0 ∧
    row.achievements = [] ∧ row.badges = [] := by
  obtain ⟨hb, ht, hs, hc, hti, hci, hach, hbad⟩ := update_some_frame today prev scores
  refine ⟨hb, ht, hs, hc, hti, hci, hach, hbad, ?_⟩
  match calls, h with
  | c :: cs, h =>
    obtain ⟨r, hfold, -, -, hb', ht', hs', hc', hti', hci', hach', hbad'⟩ :=
      foldl_from_some cs (updateUserProgress c.1 none c.2)
    have hr : r = row := by
      have : runProgress (c :: cs) = some r := by
        simpa [runProgress, progressStep] using hfold
      rw [this] at h
      exact Option.some.inj h
    subst hr
    exact ⟨hb', ht', hs', hc', hti', hci', hach', hbad'⟩

/-- C9 witness: the single-call history `[(0, exampleScores)]` and a concrete
update step on `exampleRow`. -/
theorem aggregator_frame_witness :
    runProgress [((0 : ℕ), exampleScores)] = some (updateUserProgress 0 none exampleScores) ∧
    (updateUserProgress 3 (some exampleRow) exampleScores).behavioralSkill =
        exampleRow.behavioralSkill ∧
    (updateUserProgress 0 none exampleScores).behavioralSkill = 50 :=
  ⟨rfl,
   (aggregator_frame 3 exampleRow exampleScores [((0 : ℕ), exampleScores)]
      (updateUserProgress 0 none exampleScores) rfl).1,
   (aggregator_frame 3 exampleRow exampleScores [((0 : ℕ), exampleScores)]
      (updateUserProgress 0 none exampleScores) rfl).2.2.2.2.2.2.2.2.1⟩

/-- C10: a null sub-score is coerced to 0 while the divisor stays 3, so an
Answer with all three sub-scores null contributes a sample mean of exactly 0,
and on a row whose running average is positive it strictly lowers
`averageScore` rather than being excluded. -/
theorem null_scores_drag_average (today : ℕ) (prev : UserProgressRow)
    (h : 0 < prev.averageScore) :
    orZero none = 0 ∧
    sampleMean nullScores = 0 ∧
    (updateUserProgress today (some prev) nullScores).averageScore <
      prev.averageScore := by
  refine ⟨rfl, by norm_num [sampleMean, nullScores, orZero], ?_⟩
  have havg : (updateUserProgress today (some prev) nullScores).averageScore =
      (prev.averageScore * (prev.totalQuestionsAnswered : ℚ) + sampleMean nullScores) /
        ((prev.totalQuestionsAnswered + 1 : ℕ) : ℚ) := rfl
  have hmean : sampleMean nullScores = 0 := by
    norm_num [sampleMean, nullScores, orZero]
  have hpos : (0 : ℚ) < ((prev.totalQuestionsAnswered + 1 : ℕ) : ℚ) := by
    exact_mod_cast Nat.succ_pos _
  rw [havg, hmean, add_zero, div_lt_iff₀ hpos]
  push_cast
  nlinarith [h, Nat.cast_nonneg (α := ℚ) prev.totalQuestionsAnswered]

/-- C10 witness on `exampleRow` (average 5 > 0). -/
theorem null_scores_drag_average_witness :
    (0 : ℚ) < exampleRow.averageScore ∧
    orZero none = 0 ∧
    sampleMean nullScores = 0 ∧
    (updateUserProgress 6 (some exampleRow) nullScores).averageScore <
      exampleRow.averageScore :=
  ⟨by norm_num [exampleRow], null_scores_drag_average 6 exampleRow (by norm_num [exampleRow])⟩

/-- C2 counterexample: one `generate-feedback` call with sub-scores
relevance = clarity = depth = 0 and starMethod = 4 persists an Answer whose
`overallScore` is (0+0+0+4)/4 = 1, yet leaves `UserProgress.averageScore` at
(0+0+0)/3 = 0 — so `averageScore` is not the running mean of the persisted
`overallScore` values. -/
theorem averageScore_ne_overall_mean_counterexample :
    (runPipeline [((0 : ℕ), cexFeedback)]).1.map SavedAnswer.overallScore = [some 1] ∧
    Option.map UserProgressRow.averageScore (runPipeline [((0 : ℕ), cexFeedback)]).2 =
      some 0 ∧
    (1 : ℚ) ≠ 0 := by
  refine ⟨?_, ?_, by norm_num⟩
  · show [some (overallScore cexFeedback)] = [some 1]
    norm_num [overallScore, cexFeedback]
  · show some (sampleMean (scoresOfFeedback cexFeedback)) = some 0
    norm_num [sampleMean, scoresOfFeedback, cexFeedback, orZero]

/-- C2 (amended): each persisted Answer's `overallScore` is the arithmetic mean
of the four sub-scores, recomputed at write time; but `averageScore` is the
running mean of the per-answer *three*-sub-score means (relevance, clarity,
depth — `starMethodScore` excluded, nulls coerced to 0), not of the persisted
`overallScore` values. -/
theorem averageScore_is_three_score_running_mean (calls : List (ℕ × FeedbackScores))
    (h : calls ≠ []) :
    (runPipeline calls).1 = (calls.map fun c => answerOfFeedback c.2) ∧
    (∀ f : FeedbackScores, (answerOfFeedback f).overallScore =
        some ((f.relevanceScore + f.clarityScore + f.depthScore +
          f.starMethodScore) / 4)) ∧
    (∀ f : FeedbackScores, sampleMean (scoresOfFeedback f) =
        (f.relevanceScore + f.clarityScore + f.depthScore) / 3) ∧
    ∃ row : UserProgressRow, (runPipeline calls).2 = some row ∧
      row.averageScore =
        (calls.map fun c => sampleMean (scoresOfFeedback c.2)).sum /
          (calls.length : ℚ) := by
  have hrun : runPipeline calls =
      ((calls.map fun c => answerOfFeedback c.2),
       runProgress (calls.map fun c => (c.1, scoresOfFeedback c.2))) := by
    unfold runPipeline runProgress
    rw [runPipeline_foldl]
    simp
  refine ⟨by rw [hrun], fun f => rfl, ?_, ?_⟩
  · intro f
    show (f.relevanceScore + f.clarityScore + f.depthScore) / 3 = _
    rfl
  · have hne : (calls.map fun c => (c.1, scoresOfFeedback c.2)) ≠ [] := by
      intro hc
      exact h (List.map_eq_nil_iff.mp hc)
    obtain ⟨row, hrow, hmean⟩ :=
      incremental_mean_eq_batch_mean (calls.map fun c => (c.1, scoresOfFeedback c.2)) hne
    refine ⟨row, ?_, ?_⟩
    · rw [hrun]
      exact hrow
    · rw [hmean]
      simp only [List.map_map, List.length_map]
      rfl

/-- C2 (amended) witness at the one-call history `[(0, cexFeedback)]`. -/
theorem averageScore_is_three_score_running_mean_witness :
    ([((0 : ℕ), cexFeedback)] ≠ []) ∧
    ((runPipeline [((0 : ℕ), cexFeedback)]).1 =
      ([((0 : ℕ), cexFeedback)].map fun c => answerOfFeedback c.2) ∧
    (∀ f : FeedbackScores, (answerOfFeedback f).overallScore =
        some ((f.relevanceScore + f.clarityScore + f.depthScore +
          f.starMethodScore) / 4)) ∧
    (∀ f : FeedbackScores, sampleMean (scoresOfFeedback f) =
        (f.relevanceScore + f.clarityScore + f.depthScore) / 3) ∧
    ∃ row : UserProgressRow, (runPipeline [((0 : ℕ), cexFeedback)]).2 = some row ∧
      row.averageScore =
        ([((0 : ℕ), cexFeedback)].map fun c => sampleMean (scoresOfFeedback c.2)).sum /
          (([((0 : ℕ), cexFeedback)].length : ℕ) : ℚ)) :=
  ⟨by simp, averageScore_is_three_score_running_mean [((0 : ℕ), cexFeedback)] (by simp)⟩

/-! ## Question generator (part of ai.service.ts variant with difficulty pools,
`AIService.generateQuestions` / `AIService.getFallbackQuestions`)

The upstream backend is asked for a JSON array of question objects.  The code
distinguishes three observable outcomes: the call/`JSON.parse` threw (caught,
fallback pool substituted), the parse produced a non-array JSON value
(`Array.isArray` false, treated as the empty array), or an array of question
objects whose `type` fields are arbitrary strings. -/

structure GenQuestion where
  id : String
  question : String
  type : String
  difficulty : String
  category : String
deriving DecidableEq, Repr

inductive UpstreamQuestions where
  | failure : UpstreamQuestions
  | nonArray : UpstreamQuestions
  | array : List GenQuestion → UpstreamQuestions
deriving DecidableEq, Repr

/-- Embeds the guard and filter: when a specific type is requested, keep only
questions whose `type` field compares equal to it. -/
def applyTypeFilter (questionType : Option String) (qs : List GenQuestion) :
    List GenQuestion :=
  match questionType with
  | some t => if t ≠ "all" then qs.filter (fun q => q.type == t) else qs
  | none => qs

/-- The 20-question "easy" fallback pool. -/
def easyQuestions (jobRole : String) : List GenQuestion :=
  [⟨"1", "Tell me about yourself and your interest in " ++ jobRole ++ ".",
    "behavioral", "easy", "introduction"⟩,
   ⟨"2", "What are your main strengths?", "behavioral", "easy", "self-assessment"⟩,
   ⟨"3", "Why do you want to work in this role?", "behavioral", "easy", "motivation"⟩,
   ⟨"4", "Describe a typical day in your current or previous role.",
    "behavioral", "easy", "experience"⟩,
   ⟨"5", "What interests you about our company?", "behavioral", "easy", "company-fit"⟩,
   ⟨"6", "What programming languages or tools do you use for " ++ jobRole ++ "?",
    "technical", "easy", "technical-skills"⟩,
   ⟨"7", "How would you handle receiving negative feedback?",
    "situational", "easy", "professionalism"⟩,
   ⟨"8", "What is your greatest professional achievement?",
    "behavioral", "easy", "achievements"⟩,
   ⟨"9", "How do you stay updated with industry trends?", "behavioral", "easy", "learning"⟩,
   ⟨"10", "Describe your ideal work environment.", "behavioral", "easy", "work-culture"⟩,
   ⟨"11", "What basic concepts of " ++ jobRole ++ " are you most comfortable with?",
    "technical", "easy", "fundamentals"⟩,
   ⟨"12", "How do you prioritize your tasks?", "situational", "easy", "time-management"⟩,
   ⟨"13", "Tell me about a time you worked in a team.", "behavioral", "easy", "teamwork"⟩,
   ⟨"14", "What are your career goals for the next year?", "behavioral", "easy", "goals"⟩,
   ⟨"15", "How would you explain a complex technical concept to a non-technical person?",
    "situational", "easy", "communication"⟩,
   ⟨"16", "What tools or frameworks are you familiar with in " ++ jobRole ++ "?",
    "technical", "easy", "tools"⟩,
   ⟨"17", "Describe a time when you had to learn something new quickly.",
    "behavioral", "easy", "adaptability"⟩,
   ⟨"18", "What motivates you in your work?", "behavioral", "easy", "motivation"⟩,
   ⟨"19", "How do you handle constructive criticism?", "situational", "easy", "feedback"⟩,
   ⟨"20", "What makes you a good fit for this role?", "behavioral", "easy", "fit"⟩]

/-- The 20-question "medium" fallback pool. -/
def mediumQuestions (jobRole : String) : List GenQuestion :=
  [⟨"1", "Tell me about your experience with " ++ jobRole ++
      " and what interests you about this role.", "behavioral", "medium", "background"⟩,
   ⟨"2", "Describe a challenging project you worked on and how you overcame obstacles.",
    "behavioral", "medium", "problem-solving"⟩,
   ⟨"3", "How do you handle working under pressure and tight deadlines?",
    "situational", "medium", "stress-management"⟩,
   ⟨"4", "Tell me about a time when you had to work with a difficult team member.",
    "behavioral", "medium", "teamwork"⟩,
   ⟨"5", "Where do you see yourself in 5 years and how does this role fit into your career goals?",
    "behavioral", "medium", "career-planning"⟩,
   ⟨"6", "Explain the architecture of a system you have built for " ++ jobRole ++ ".",
    "technical", "medium", "architecture"⟩,
   ⟨"7", "How would you handle a conflict between two team members?",
    "situational", "medium", "conflict-resolution"⟩,
   ⟨"8", "Describe a time when you had to persuade stakeholders to adopt your solution.",
    "behavioral", "medium", "influence"⟩,
   ⟨"9", "What are the trade-offs between different approaches in " ++ jobRole ++ "?",
    "technical", "medium", "decision-making"⟩,
   ⟨"10", "Tell me about a time when you missed a deadline. What happened?",
    "behavioral", "medium", "failure"⟩,
   ⟨"11", "How do you ensure code quality in your projects?",
    "technical", "medium", "quality"⟩,
   ⟨"12", "How would you onboard a new team member?", "situational", "medium", "mentorship"⟩,
   ⟨"13", "Describe your approach to debugging complex issues.",
    "technical", "medium", "debugging"⟩,
   ⟨"14", "Tell me about a time you had to adapt to significant changes at work.",
    "behavioral", "medium", "change-management"⟩,
   ⟨"15", "How do you balance technical debt with feature development?",
    "situational", "medium", "prioritization"⟩,
   ⟨"16", "What testing strategies do you use for " ++ jobRole ++ " projects?",
    "technical", "medium", "testing"⟩,
   ⟨"17", "Describe a time when you improved a process or system.",
    "behavioral", "medium", "improvement"⟩,
   ⟨"18", "How would you handle a situation where you disagree with your manager?",
    "situational", "medium", "disagreement"⟩,
   ⟨"19", "Explain performance optimization techniques for " ++ jobRole ++ ".",
    "technical", "medium", "optimization"⟩,
   ⟨"20", "Tell me about a time you took initiative on a project.",
    "behavioral", "medium", "initiative"⟩]

/-- The 20-question "hard" fallback pool. -/
def hardQuestions (jobRole : String) : List GenQuestion :=
  [⟨"1", "Describe the most complex technical problem you have solved in " ++ jobRole ++
      " and walk me through your approach.", "technical", "hard", "problem-solving"⟩,
   ⟨"2", "Tell me about a time when you had to make a critical decision with incomplete information. What was your thought process?",
    "situational", "hard", "decision-making"⟩,
   ⟨"3", "How would you design and implement a system for [complex scenario]? Consider scalability, reliability, and cost.",
    "technical", "hard", "system-design"⟩,
   ⟨"4", "Describe a situation where your initial approach failed. How did you identify the issue and what did you do differently?",
    "behavioral", "hard", "adaptability"⟩,
   ⟨"5", "You are leading a project that is behind schedule and over budget. Walk me through your strategy to recover.",
    "situational", "hard", "leadership"⟩,
   ⟨"6", "Design a scalable architecture for a high-traffic " ++ jobRole ++ " application.",
    "technical", "hard", "scalability"⟩,
   ⟨"7", "Describe a time when you had to make a decision that was unpopular but necessary.",
    "behavioral", "hard", "tough-decisions"⟩,
   ⟨"8", "How would you architect a system to handle millions of concurrent users?",
    "technical", "hard", "system-design"⟩,
   ⟨"9", "Tell me about a time you had to deliver bad news to stakeholders.",
    "situational", "hard", "communication"⟩,
   ⟨"10", "Describe the most significant technical architecture decision you have made and its impact.",
    "technical", "hard", "architecture"⟩,
   ⟨"11", "How would you handle a critical production outage affecting thousands of users?",
    "situational", "hard", "crisis-management"⟩,
   ⟨"12", "Explain how you would mentor a struggling team member while meeting project deadlines.",
    "behavioral", "hard", "mentorship"⟩,
   ⟨"13", "What are the most critical security considerations for " ++ jobRole ++
      " and how do you address them?", "technical", "hard", "security"⟩,
   ⟨"14", "Describe a situation where you had to completely pivot your technical approach mid-project.",
    "behavioral", "hard", "adaptability"⟩,
   ⟨"15", "How would you lead a technical transformation initiative across multiple teams?",
    "situational", "hard", "transformation"⟩,
   ⟨"16", "Design a distributed system with high availability requirements for " ++
      jobRole ++ ".", "technical", "hard", "distributed-systems"⟩,
   ⟨"17", "Tell me about a time when you had to navigate significant organizational politics.",
    "behavioral", "hard", "politics"⟩,
   ⟨"18", "How would you migrate a legacy system to a modern architecture with zero downtime?",
    "technical", "hard", "migration"⟩,
   ⟨"19", "Describe how you have built and maintained a high-performing engineering culture.",
    "behavioral", "hard", "culture"⟩,
   ⟨"20", "How do you make technology decisions when there are multiple valid approaches?",
    "situational", "hard", "decision-framework"⟩]

/-- Embeds `AIService.getFallbackQuestions(jobRole, difficulty, numberOfQuestions,
questionType)`: select the pool by difficulty (`questionSets[difficulty] ||
mediumQuestions`), filter by the requested type, truncate to the requested
count. -/
def getFallbackQuestions (jobRole : String) (difficulty : String)
    (numberOfQuestions : ℕ) (questionType : Option String) : List GenQuestion :=
  let allQuestions :=
    if difficulty = "easy" then easyQuestions jobRole
    else if difficulty = "medium" then mediumQuestions jobRole
    else if difficulty = "hard" then hardQuestions jobRole
    else mediumQuestions jobRole
  (applyTypeFilter questionType allQuestions).take numberOfQuestions

/-- Embeds `AIService.generateQuestions(jobRole, company, experience, difficulty,
numberOfQuestions, questionType)` (memoization aside — a cached value is a
previous return value of this same computation for identical parameters): on a
parsed JSON array, filter by the requested type and truncate; on a non-array
JSON value, the same applied to the empty array; on any thrown error
(upstream call or `JSON.parse`), the static fallback pool, filtered and
truncated the same way.  `company` and `experience` shape the prompt only. -/
def generateQuestions (jobRole company experience : String) (difficulty : String)
    (numberOfQuestions : ℕ) (questionType : Option String)
    (upstream : UpstreamQuestions) : List GenQuestion :=
  match upstream with
  | .array qs => (applyTypeFilter questionType qs).take numberOfQuestions
  | .nonArray => (applyTypeFilter questionType []).take numberOfQuestions
  | .failure => getFallbackQuestions jobRole difficulty numberOfQuestions questionType

theorem applyTypeFilter_spec (t : String) (h : t ≠ "all") (qs : List GenQuestion)
    (n : ℕ) :
    ((applyTypeFilter (some t) qs).take n).length ≤ n ∧
    ∀ q ∈ (applyTypeFilter (some t) qs).take n, q.type = t := by
  constructor
  · simpa using List.length_take_le n (applyTypeFilter (some t) qs)
  · intro q hq
    have hq' : q ∈ applyTypeFilter (some t) qs := List.mem_of_mem_take hq
    simp only [applyTypeFilter] at hq'
    rw [if_pos h] at hq'
    have := List.of_mem_filter hq'
    exact eq_of_beq this

/-- C7: for a specific requested type `t ≠ "all"`, every branch of
`generateQuestions` — parsed array (even mixed-type or oversized), non-array
JSON, and the static difficulty pool fallback — returns at most
`numberOfQuestions` questions, none of whose `type` differs from `t`.  The
embedding is a total function into lists, so the operation never throws and a
result length is never negative. -/
theorem generateQuestions_type_and_count (jobRole company experience difficulty : String)
    (n : ℕ) (t : String) (h : t ≠ "all") (upstream : UpstreamQuestions) :
    (generateQuestions jobRole company experience difficulty n (some t) upstream).length ≤ n ∧
    ∀ q ∈ generateQuestions jobRole company experience difficulty n (some t) upstream,
      q.type = t := by
  match upstream with
  | .array qs => exact applyTypeFilter_spec t h qs n
  | .nonArray => exact applyTypeFilter_spec t h [] n
  | .failure =>
      unfold generateQuestions getFallbackQuestions
      split <;> exact applyTypeFilter_spec t h _ n

/-- C7 witness: `numberOfQuestions = 5, questionType = "technical"` on a
mixed-type upstream array. -/
theorem generateQuestions_type_and_count_witness :
    ("technical" ≠ "all") ∧
    (generateQuestions "Engineer" "Acme" "mid-level" "medium" 5 (some "technical")
        (.array [⟨"1", "Q1", "behavioral", "medium", "x"⟩,
                 ⟨"2", "Q2", "technical", "medium", "x"⟩])).length ≤ 5 :=
  ⟨by decide,
   (generateQuestions_type_and_count "Engineer" "Acme" "mid-level" "medium" 5 "technical"
      (by decide)
      (.array [⟨"1", "Q1", "behavioral", "medium", "x"⟩,
               ⟨"2", "Q2", "technical", "medium", "x"⟩])).1⟩

/-! ## Feedback memoization (cache.service.ts `CacheService`, and the cache key
built in `AIService.generateFeedback`)

`CacheService` is a map from string keys to `{data, expiresAt}` entries;
`set(key, data, ttl)` stores `expiresAt = now + ttl`, `get(key)` returns the
stored data unless `now > expiresAt` (in which case the entry is dropped and
`null` returned).  Time is modelled as a natural-number clock passed
explicitly. -/

structure CacheEntry where
  data : String
  expiresAt : ℕ
deriving DecidableEq, Repr

def Cache : Type := String → Option CacheEntry

def emptyCache : Cache := fun _ => none

/-- Embeds `CacheService.set(key, data, ttl)` at clock time `now`. -/
def cacheSet (c : Cache) (key data : String) (now ttl : ℕ) : Cache :=
  fun k => if k = key then some { data := data, expiresAt := now + ttl } else c k

/-- Embeds `CacheService.get(key)` at clock time `now`: expired iff `now > expiresAt`. -/
def cacheGet (c : Cache) (key : String) (now : ℕ) : Option String :=
  match c key with
  | none => none
  | some entry => if entry.expiresAt < now then none else some entry.data

/-- JavaScript `s.substring(0, 50)`: the first 50 characters (whole string when
shorter).  All strings involved here are ASCII, so code-unit and character
indexing agree. -/
def substring50 (s : String) : String :=
  String.mk (s.data.take 50)

/-- The memoization key built in `AIService.generateFeedback`:
`` `feedback:${question.substring(0, 50)}:${answer.substring(0, 50)}` ``. -/
def feedbackCacheKey (question answer : String) : String :=
  "feedback:" ++ substring50 question ++ ":" ++ substring50 answer

/-- A 51-character answer: fifty 'a's followed by 'b'. -/
def collideA : String := String.mk (List.replicate 50 'a') ++ "b"

/-- A 51-character answer: fifty 'a's followed by 'c'. -/
def collideB : String := String.mk (List.replicate 50 'a') ++ "c"

/-- C8 counterexample: two different (question, answer) pairs share a cache
entry.  `collideA ≠ collideB`, yet both pairs map to the same cache key, so a
call with `collideB` within the TTL window is served the value cached for
`collideA`. -/
theorem cacheKey_collision_counterexample :
    collideA ≠ collideB ∧
    feedbackCacheKey "Q" collideA = feedbackCacheKey "Q" collideB ∧
    cacheGet
      (cacheSet emptyCache (feedbackCacheKey "Q" collideA) "cached feedback" 0 1800000)
      (feedbackCacheKey "Q" collideB) 60 = some "cached feedback" := by
  refine ⟨by decide, by decide, by decide⟩

/-- C8 (amended): the cache key is a stable function of the *50-character
prefixes* of the two inputs — identical pairs always map to the same key, any
two pairs agreeing on both prefixes map to the same key (hence distinct pairs
can share an entry), and a `get` within the TTL window returns exactly the
string previously stored under that key. -/
theorem cacheKey_stable_on_prefixes :
    (∀ question answer question' answer' : String,
        question = question' → answer = answer' →
        feedbackCacheKey question answer = feedbackCacheKey question' answer') ∧
    (∀ question answer question' answer' : String,
        substring50 question = substring50 question' →
        substring50 answer = substring50 answer' →
        feedbackCacheKey question answer = feedbackCacheKey question' answer') ∧
    (∀ (c : Cache) (key value : String) (now ttl later : ℕ),
        later ≤ now + ttl →
        cacheGet (cacheSet c key value now ttl) key later = some value) := by
  refine ⟨?_, ?_, ?_⟩
  · intro q a q' a' hq ha
    rw [hq, ha]
  · intro q a q' a' hq ha
    unfold feedbackCacheKey
    rw [hq, ha]
  · intro c key value now ttl later h
    show (match (if key = key then some ⟨value, now + ttl⟩ else c key) with
      | none => none
      | some entry => if entry.expiresAt < later then none else some entry.data) =
        some value
    rw [if_pos rfl]
    show (if now + ttl < later then none else some value) = some value
    rw [if_neg (by omega)]

/-- C8 (amended) witness: a concrete store at time 2 with TTL 5 is hit at
time 3. -/
theorem cacheKey_stable_on_prefixes_witness :
    ((3 : ℕ) ≤ 2 + 5) ∧
    cacheGet (cacheSet emptyCache "k" "v" 2 5) "k" 3 = some "v" :=
  ⟨by decide, cacheKey_stable_on_prefixes.2.2 emptyCache "k" "v" 2 5 3 (by decide)⟩

end PrepForge
